import Mathlib

/-!
# Verification of the world-tax classification-and-compounding engine

Shallow embedding of the Rust sources (`src/types.rs`, `src/provider.rs`,
`src/calculation.rs`) of the `world-tax` crate, followed by theorems that
settle the frozen claims about its specification.

Modelling conventions:
* Rust `f64` amounts and rates are modelled as exact rationals (`ℚ`); the
  claims under scrutiny are about branch structure, fold order and rounding
  mode, not about binary floating-point error.
* The Rust cast `amount as u32` (saturating, truncating toward zero) is
  modelled by `f64_as_u32`.
* `HashMap` fields are modelled as association lists with `List.lookup`;
  `values()` iteration is modelled by list order.
* `rust_decimal::Decimal → f64` conversion in `calculate_tax_decimal` is
  kept abstract: the embedding takes the conversion as an explicit function
  argument `to_f64 : ℚ → Option ℚ` (the code's `Decimal::to_f64` returning
  `Option`).
* Rust `Result` becomes `Except`; functions that mutate a `Vec` of rates
  return the list of pushed elements.
-/

namespace WorldTax

/-- `TaxSystemType` from src/types.rs. -/
inductive TaxSystemType where
  | Vat
  | Gst
  | Pst
  | Hst
  | Qst
  | NoSystem
deriving DecidableEq, Repr

/-- `TransactionType` from src/types.rs. -/
inductive TransactionType where
  | B2B
  | B2C
deriving DecidableEq, Repr

/-- `TaxCalculationType` from src/types.rs (the Rust variant `None` is
rendered `NoneType` to avoid clashing with `Option.none`). -/
inductive TaxCalculationType where
  | Origin
  | Destination
  | ReverseCharge
  | ZeroRated
  | Exempt
  | NoneType
  | ThresholdBased
deriving DecidableEq, Repr

/-- `VatRate` from src/types.rs. -/
inductive VatRate where
  | Standard
  | Reduced
  | ReducedAlt
  | SuperReduced
  | Zero
  | Exempt
  | ReverseCharge
deriving DecidableEq, Repr

/-- `TaxType` from src/types.rs. -/
inductive TaxType where
  | VAT (v : VatRate)
  | GST
  | HST
  | PST
  | QST
  | StateSalesTax
deriving DecidableEq, Repr

/-- `TradeAgreementType` from src/types.rs. -/
inductive TradeAgreementType where
  | CustomsUnion
  | FederalState
deriving DecidableEq, Repr

/-- `TradeAgreementOverride` from src/types.rs. -/
inductive TradeAgreementOverride where
  | UseAgreement (id : String)
  | NoAgreement
deriving DecidableEq, Repr

/-- `AppliesTo` from src/types.rs. -/
structure AppliesTo where
  physical_goods : Bool
  digital_goods : Bool
  services : Bool
deriving DecidableEq, Repr

/-- `TaxRuleConfig` from src/types.rs; thresholds are Rust `u32`, modelled
as `ℕ` (all values produced by the code stay below `2^32`). -/
structure TaxRuleConfig where
  type : TaxCalculationType
  below_threshold : Option TaxCalculationType
  above_threshold : Option TaxCalculationType
  threshold : Option ℕ
  below_threshold_digital_products : Option TaxCalculationType
  above_threshold_digital_products : Option TaxCalculationType
  threshold_digital_products : Option ℕ
  requires_resale_certificate : Option Bool
deriving DecidableEq, Repr

/-- `TaxRules` from src/types.rs. -/
structure TaxRules where
  internal_b2b : Option TaxRuleConfig
  internal_b2c : Option TaxRuleConfig
  external_export : TaxRuleConfig
deriving DecidableEq, Repr

/-- `TradeAgreement` from src/types.rs. -/
structure TradeAgreement where
  name : String
  type : TradeAgreementType
  members : List String
  default_applicable : Bool
  applies_to : AppliesTo
  tax_rules : TaxRules
deriving DecidableEq, Repr

/-- `TradeAgreement::is_federal` from src/types.rs. -/
def TradeAgreement.is_federal (a : TradeAgreement) : Bool :=
  a.type = TradeAgreementType.FederalState

/-- `TradeAgreement::is_international` from src/types.rs. -/
def TradeAgreement.is_international (a : TradeAgreement) : Bool :=
  a.type = TradeAgreementType.CustomsUnion

/-- `State` from src/types.rs. -/
structure State where
  standard_rate : ℚ
  tax_type : TaxSystemType
deriving DecidableEq, Repr

/-- `Country` from src/types.rs; the `states` map is an association list. -/
structure Country where
  tax_type : TaxSystemType
  currency : String
  standard_rate : ℚ
  reduced_rate : Option ℚ
  reduced_rate_alt : Option ℚ
  super_reduced_rate : Option ℚ
  parking_rate : Option ℚ
  vat_name : Option String
  vat_abbr : Option String
  states : Option (List (String × State))
deriving DecidableEq, Repr

/-- `Region` from src/types.rs (validation is an external concern). -/
structure Region where
  country : String
  region : Option String
deriving DecidableEq, Repr

/-- `TaxScenario` from src/types.rs. -/
structure TaxScenario where
  source_region : Region
  destination_region : Region
  transaction_type : TransactionType
  trade_agreement_override : Option TradeAgreementOverride
  is_digital_product_or_service : Bool
  has_resale_certificate : Bool
  ignore_threshold : Bool
  vat_rate : Option VatRate
deriving DecidableEq, Repr

/-- `TaxRate` from src/types.rs. -/
structure TaxRate where
  rate : ℚ
  tax_type : TaxType
  compound : Bool
deriving DecidableEq, Repr

/-- `DatabaseError` from src/errors.rs. -/
inductive DatabaseError where
  | TradeAgreementNotFound (id : String)
  | CountryNotFound (code : String)
  | RegionNotFound (code : String)
  | VatRateNotFound (name : String)
deriving DecidableEq, Repr

/-- `ProcessingError` from src/errors.rs (the input-validation payload is
irrelevant to the claims and carried as a string). -/
inductive ProcessingError where
  | InputValidationError (msg : String)
  | DatabaseError (e : DatabaseError)
  | InvalidAmount
deriving DecidableEq, Repr

/-- `TaxDatabase` from src/provider.rs; both maps as association lists. -/
structure TaxDatabase where
  countries : List (String × Country)
  trade_agreements : List (String × TradeAgreement)
deriving DecidableEq, Repr

/-- Rust saturating cast `f64 as u32`: truncate toward zero and clamp to
`[0, u32::MAX]`. -/
def f64_as_u32 (q : ℚ) : ℕ :=
  min (max ⌊q⌋ 0).toNat 4294967295

/-- `TaxRuleConfig::by_threshold` from src/types.rs lines 186-197. -/
def TaxRuleConfig.by_threshold (c : TaxRuleConfig) (amount : ℕ)
    (ignore_threshold : Bool) : TaxCalculationType :=
  match c.below_threshold, c.above_threshold, c.threshold with
  | some below, some above, some rule_threshold =>
      if amount < rule_threshold ∧ ignore_threshold = false then below else above
  | _, _, _ => c.type

/-- `TaxRuleConfig::by_digital_product_threshold` from src/types.rs
lines 200-213. -/
def TaxRuleConfig.by_digital_product_threshold (c : TaxRuleConfig)
    (amount : ℕ) (ignore_threshold : Bool) : TaxCalculationType :=
  match c.below_threshold_digital_products,
        c.above_threshold_digital_products, c.threshold_digital_products with
  | some below, some above, some rule_threshold =>
      if amount < rule_threshold ∧ ignore_threshold = false then below else above
  | _, _, _ => c.type

/-- `TaxRuleConfig::by_threshold_or_digital_product_threshold` from
src/types.rs lines 216-226. -/
def TaxRuleConfig.by_threshold_or_digital_product_threshold
    (c : TaxRuleConfig) (amount : ℕ) (is_digital_product_or_service : Bool)
    (ignore_threshold : Bool) : TaxCalculationType :=
  if is_digital_product_or_service then
    c.by_digital_product_threshold amount ignore_threshold
  else
    c.by_threshold amount ignore_threshold

/-- `TaxRuleConfig::is_reseller` from src/types.rs lines 229-234. -/
def TaxRuleConfig.is_reseller (c : TaxRuleConfig)
    (has_resale_certificate : Bool) : Bool :=
  match c.requires_resale_certificate with
  | some required => required && has_resale_certificate
  | none => false

/-- `strum` `Display` for `VatRate` (variant name verbatim), used only in
the `VatRateNotFound` error payload. -/
def VatRate.display : VatRate → String
  | VatRate.Standard => "Standard"
  | VatRate.Reduced => "Reduced"
  | VatRate.ReducedAlt => "ReducedAlt"
  | VatRate.SuperReduced => "SuperReduced"
  | VatRate.Zero => "Zero"
  | VatRate.Exempt => "Exempt"
  | VatRate.ReverseCharge => "ReverseCharge"

/-- `TaxDatabase::get_federal_rule` from src/provider.rs lines 107-118. -/
def TaxDatabase.get_federal_rule (db : TaxDatabase) (country : String) :
    Option TradeAgreement :=
  match db.trade_agreements.lookup country with
  | some rule => if rule.is_federal then some rule else none
  | none => none

/-- `TaxDatabase::get_international_rule` from src/provider.rs
lines 130-140; `values()` iteration is modelled by list order. -/
def TaxDatabase.get_international_rule (db : TaxDatabase) (source : String)
    (dest : String) : Option TradeAgreement :=
  (db.trade_agreements.find? fun p =>
    p.2.members.contains source && p.2.members.contains dest
      && p.2.is_international).map (·.2)

/-- `TaxDatabase::get_country` from src/provider.rs lines 151-158. -/
def TaxDatabase.get_country (db : TaxDatabase) (code : String) :
    Except DatabaseError Country :=
  match db.countries.lookup code with
  | some country => Except.ok country
  | none => Except.error (DatabaseError.CountryNotFound code)

/-- `TaxDatabase::get_rule` from src/provider.rs lines 169-176. -/
def TaxDatabase.get_rule (db : TaxDatabase) (rule_id : String) :
    Except DatabaseError TradeAgreement :=
  match db.trade_agreements.lookup rule_id with
  | some rule => Except.ok rule
  | none => Except.error (DatabaseError.TradeAgreementNotFound rule_id)

/-- `TaxDatabase::handle_vat_rates` from src/provider.rs lines 317-340,
returning the list of rates pushed (the Rust function always returns
`Ok(())` and mutates its `rates` vector, which is empty at the call site
in `get_rate`). -/
def TaxDatabase.handle_vat_rates (country : Country)
    (vat_rate : Option VatRate) : List TaxRate :=
  let rate_type := vat_rate.getD VatRate.Standard
  let rate : Option ℚ :=
    match rate_type with
    | VatRate.Standard => some country.standard_rate
    | VatRate.Reduced => country.reduced_rate
    | VatRate.ReducedAlt => country.reduced_rate_alt
    | VatRate.SuperReduced => country.super_reduced_rate
    | VatRate.Zero => some 0
    | VatRate.Exempt => some 0
    | VatRate.ReverseCharge => some 0
  match rate with
  | some rate_value => [⟨rate_value, TaxType.VAT rate_type, false⟩]
  | none => []

/-- `TaxDatabase::handle_gst_rates` from src/provider.rs lines 342-411,
returning the list of rates pushed (call site passes an empty vector). -/
def TaxDatabase.handle_gst_rates (country : Country)
    (region : Option String) : List TaxRate :=
  match region with
  | some region_code =>
    match country.states with
    | some states =>
      match states.lookup region_code with
      | some state =>
        match state.tax_type with
        | TaxSystemType.Hst =>
            [⟨state.standard_rate, TaxType.HST, false⟩]
        | TaxSystemType.Qst =>
            [⟨country.standard_rate, TaxType.GST, false⟩,
             ⟨state.standard_rate, TaxType.QST, true⟩]
        | TaxSystemType.Pst =>
            [⟨country.standard_rate, TaxType.GST, false⟩,
             ⟨state.standard_rate, TaxType.PST, true⟩]
        | _ =>
            [⟨country.standard_rate, TaxType.GST, false⟩]
      | none => [⟨country.standard_rate, TaxType.GST, false⟩]
    | none => [⟨country.standard_rate, TaxType.GST, false⟩]
  | none => [⟨country.standard_rate, TaxType.GST, false⟩]

/-- The inline `TaxSystemType::Gst` branch of `TaxDatabase::get_rate`
(src/provider.rs lines 239-294): unlike `handle_gst_rates`, a region code
that is given but not found in the states map yields no rates. -/
def TaxDatabase.gst_branch_rates (country_data : Country)
    (region : Option String) : List TaxRate :=
  match region with
  | some region_code =>
    match country_data.states with
    | some states =>
      match states.lookup region_code with
      | some state =>
        match state.tax_type with
        | TaxSystemType.Hst =>
            [⟨state.standard_rate, TaxType.HST, false⟩]
        | TaxSystemType.Qst =>
            [⟨country_data.standard_rate, TaxType.GST, false⟩,
             ⟨state.standard_rate, TaxType.QST, true⟩]
        | TaxSystemType.Pst =>
            [⟨country_data.standard_rate, TaxType.GST, false⟩,
             ⟨state.standard_rate, TaxType.PST, true⟩]
        | _ =>
            [⟨country_data.standard_rate, TaxType.GST, false⟩]
      | none => []
    | none => []
  | none => [⟨country_data.standard_rate, TaxType.GST, false⟩]

/-- The `US` special case of `TaxDatabase::get_rate`
(src/provider.rs lines 220-236). -/
def TaxDatabase.us_rates (country_data : Country)
    (region : Option String) : List TaxRate :=
  match region with
  | some region_code =>
    match country_data.states with
    | some states =>
      match states.lookup region_code with
      | some state =>
          if state.standard_rate > 0 then
            [⟨state.standard_rate, TaxType.StateSalesTax, false⟩]
          else []
      | none => []
    | none => []
  | none => []

/-- The tax-system dispatch filling the `rates` vector in
`TaxDatabase::get_rate` (src/provider.rs lines 238-302). -/
def TaxDatabase.dispatch_rates (country_data : Country)
    (region : Option String) (vat_rate : Option VatRate) : List TaxRate :=
  match country_data.tax_type with
  | TaxSystemType.Gst => TaxDatabase.gst_branch_rates country_data region
  | TaxSystemType.Vat => TaxDatabase.handle_vat_rates country_data vat_rate
  | TaxSystemType.Pst => TaxDatabase.handle_gst_rates country_data region
  | TaxSystemType.Hst => TaxDatabase.handle_gst_rates country_data region
  | TaxSystemType.Qst => TaxDatabase.handle_gst_rates country_data region
  | TaxSystemType.NoSystem => []

/-- `TaxDatabase::get_rate` from src/provider.rs lines 210-315. -/
def TaxDatabase.get_rate (db : TaxDatabase) (country : String)
    (region : Option String) (vat_rate : Option VatRate) :
    Except DatabaseError (List TaxRate) :=
  match db.get_country country with
  | Except.error e => Except.error e
  | Except.ok country_data =>
    if country = "US" then
      Except.ok (TaxDatabase.us_rates country_data region)
    else
      if (TaxDatabase.dispatch_rates country_data region vat_rate).isEmpty then
        if country_data.tax_type = TaxSystemType.Vat then
          Except.error (DatabaseError.VatRateNotFound
            ((vat_rate.getD VatRate.Standard).display))
        else
          Except.ok (TaxDatabase.dispatch_rates country_data region vat_rate)
      else
        Except.ok (TaxDatabase.dispatch_rates country_data region vat_rate)

/-- `TaxScenario::is_same_country` from src/calculation.rs lines 74-76. -/
def TaxScenario.is_same_country (s : TaxScenario) : Bool :=
  s.source_region.country = s.destination_region.country

/-- `TaxScenario::is_same_state` from src/calculation.rs lines 79-81. -/
def TaxScenario.is_same_state (s : TaxScenario) : Bool :=
  s.source_region.region = s.destination_region.region

/-- The Canadian early-return block of
`TaxScenario::get_calculation_type_from_agreement`
(src/calculation.rs lines 122-133): destination `CA` with an HST province
or Quebec as destination subdivision. -/
def TaxScenario.ca_hst_or_qc (s : TaxScenario) : Bool :=
  s.destination_region.country = "CA" &&
    (match s.destination_region.region with
     | some region =>
         ["CA-NS", "CA-NB", "CA-NL", "CA-ON", "CA-PE"].contains region
           || region = "CA-QC"
     | none => false)

/-- `TaxScenario::get_calculation_type_from_agreement` from
src/calculation.rs lines 93-165. -/
def TaxScenario.get_calculation_type_from_agreement (s : TaxScenario)
    (agreement : TradeAgreement) (amount : ℚ) :
    Except ProcessingError TaxCalculationType :=
  if agreement.is_international then
    match s.transaction_type with
    | TransactionType.B2B =>
      match agreement.tax_rules.internal_b2b with
      | some rule =>
          Except.ok (rule.by_threshold (f64_as_u32 amount) s.ignore_threshold)
      | none => Except.ok TaxCalculationType.Destination
    | TransactionType.B2C =>
      match agreement.tax_rules.internal_b2c with
      | some rule =>
          Except.ok (rule.by_threshold_or_digital_product_threshold
            (f64_as_u32 amount) s.is_digital_product_or_service
            s.ignore_threshold)
      | none => Except.ok TaxCalculationType.Destination
  else if agreement.is_federal then
    if s.ca_hst_or_qc then Except.ok TaxCalculationType.Destination
    else
      match s.transaction_type with
      | TransactionType.B2B =>
        match agreement.tax_rules.internal_b2b with
        | some u_rule =>
            if u_rule.is_reseller s.has_resale_certificate then
              Except.ok TaxCalculationType.ZeroRated
            else
              Except.ok (u_rule.by_threshold (f64_as_u32 amount)
                s.ignore_threshold)
        | none => Except.ok TaxCalculationType.Destination
      | TransactionType.B2C =>
        match agreement.tax_rules.internal_b2c with
        | some rule =>
            if s.ignore_threshold = false ∧
                amount < ((rule.threshold.getD 4294967295 : ℕ) : ℚ) then
              Except.ok TaxCalculationType.ZeroRated
            else
              Except.ok (rule.by_threshold (f64_as_u32 amount)
                s.ignore_threshold)
        | none => Except.ok TaxCalculationType.Destination
  else
    Except.ok TaxCalculationType.Destination

/-- `TaxScenario::determine_rule` from src/calculation.rs lines 176-196. -/
def TaxScenario.determine_rule (s : TaxScenario) (db : TaxDatabase) :
    Except DatabaseError (Option TradeAgreement) :=
  match s.trade_agreement_override with
  | some (TradeAgreementOverride.UseAgreement agreement) =>
    match db.get_rule agreement with
    | Except.ok rule => Except.ok (some rule)
    | Except.error e => Except.error e
  | some TradeAgreementOverride.NoAgreement => Except.ok none
  | none =>
    if s.is_same_country then
      Except.ok (db.get_federal_rule s.source_region.country)
    else
      Except.ok (db.get_international_rule s.source_region.country
        s.destination_region.country)

/-- `TaxScenario::determine_calculation_type` from src/calculation.rs
lines 222-244. -/
def TaxScenario.determine_calculation_type (s : TaxScenario)
    (db : TaxDatabase) (amount : ℚ) :
    Except ProcessingError TaxCalculationType :=
  match s.determine_rule db with
  | Except.error e => Except.error (ProcessingError.DatabaseError e)
  | Except.ok none =>
    if s.is_same_country then
      match s.transaction_type with
      | TransactionType.B2B => Except.ok TaxCalculationType.Origin
      | TransactionType.B2C => Except.ok TaxCalculationType.Origin
    else
      Except.ok TaxCalculationType.ZeroRated
  | Except.ok (some agreement) =>
    s.get_calculation_type_from_agreement agreement amount

/-- The `region` selection of `TaxScenario::get_regional_rates`
(src/calculation.rs lines 330-334): source for `Origin`, destination
otherwise (`ZeroRated` has returned early). -/
def TaxScenario.lookup_region (s : TaxScenario)
    (calculation_type : TaxCalculationType) : Region :=
  match calculation_type with
  | TaxCalculationType.Origin => s.source_region
  | _ => s.destination_region

/-- `TaxScenario::get_regional_rates` from src/calculation.rs
lines 329-358. -/
def TaxScenario.get_regional_rates (s : TaxScenario)
    (calculation_type : TaxCalculationType) (db : TaxDatabase) :
    Except ProcessingError (List TaxRate) :=
  match calculation_type with
  | TaxCalculationType.ZeroRated => Except.ok []
  | _ =>
    if ((s.lookup_region calculation_type).country = "US" ∨
        (s.lookup_region calculation_type).country = "CA") ∧
        s.is_same_state = false then
      match calculation_type with
      | TaxCalculationType.Origin => Except.ok []
      | TaxCalculationType.Destination =>
        match db.get_rate (s.lookup_region calculation_type).country
            (s.lookup_region calculation_type).region s.vat_rate with
        | Except.ok rates => Except.ok rates
        | Except.error e => Except.error (ProcessingError.DatabaseError e)
      | _ => Except.ok []
    else
      match db.get_rate (s.lookup_region calculation_type).country
          (s.lookup_region calculation_type).region s.vat_rate with
      | Except.ok rates => Except.ok rates
      | Except.error e => Except.error (ProcessingError.DatabaseError e)

/-- `TaxScenario::get_rates` from src/calculation.rs lines 270-326. -/
def TaxScenario.get_rates (s : TaxScenario) (amount : ℚ)
    (db : TaxDatabase) : Except ProcessingError (List TaxRate) :=
  match s.determine_calculation_type db amount with
  | Except.error e => Except.error e
  | Except.ok calculation_type =>
    if s.source_region.country = "US" ∧
        s.transaction_type = TransactionType.B2B ∧
        s.has_resale_certificate = true then
      Except.ok []
    else
      match db.get_country s.destination_region.country with
      | Except.error e => Except.error (ProcessingError.DatabaseError e)
      | Except.ok country =>
        match calculation_type with
        | TaxCalculationType.ReverseCharge =>
          match country.tax_type with
          | TaxSystemType.Vat =>
              Except.ok [⟨0, TaxType.VAT VatRate.ReverseCharge, false⟩]
          | _ => s.get_regional_rates calculation_type db
        | TaxCalculationType.ZeroRated =>
          match country.tax_type with
          | TaxSystemType.Vat =>
              Except.ok [⟨0, TaxType.VAT VatRate.Zero, false⟩]
          | _ => Except.ok []
        | TaxCalculationType.Exempt =>
          match country.tax_type with
          | TaxSystemType.Vat =>
              Except.ok [⟨0, TaxType.VAT VatRate.Exempt, false⟩]
          | _ => s.get_regional_rates calculation_type db
        | _ => s.get_regional_rates calculation_type db

/-- The accumulation loop shared by `calculate_tax` and
`calculate_tax_decimal` (src/calculation.rs lines 387-397 and 407-417):
fold the rate list in order, starting from total `0`, adding
`(amount + total) * rate` for a compound component and `amount * rate`
otherwise. -/
def taxFold (amount : ℚ) (rates : List TaxRate) : ℚ :=
  rates.foldl
    (fun total_tax rate =>
      total_tax +
        (if rate.compound then (amount + total_tax) * rate.rate
         else amount * rate.rate))
    0

/-- Rust `f64::round`: nearest integer, half-way cases away from zero. -/
def rustRound (q : ℚ) : ℤ :=
  if 0 ≤ q then ⌊q + 1/2⌋ else -⌊-q + 1/2⌋

/-- The final line of `calculate_tax`
(src/calculation.rs line 399): `(total_tax * 100.0).round() / 100.0`. -/
def roundTo2 (q : ℚ) : ℚ :=
  ((rustRound (q * 100) : ℚ)) / 100

/-- `TaxScenario::calculate_tax` from src/calculation.rs lines 384-400. -/
def TaxScenario.calculate_tax (s : TaxScenario) (amount : ℚ)
    (db : TaxDatabase) : Except ProcessingError ℚ :=
  match s.get_rates amount db with
  | Except.error e => Except.error e
  | Except.ok rates => Except.ok (roundTo2 (taxFold amount rates))

/-- `TaxScenario::calculate_tax_decimal` from src/calculation.rs
lines 402-420.  The `Decimal::to_f64` conversion is abstracted as the
argument `to_f64` (in the code it yields `None` exactly when the amount
cannot be converted, triggering `ProcessingError::InvalidAmount`); the
decimal fold itself is exact and unrounded. -/
def TaxScenario.calculate_tax_decimal (s : TaxScenario)
    (to_f64 : ℚ → Option ℚ) (amount : ℚ) (db : TaxDatabase) :
    Except ProcessingError ℚ :=
  match to_f64 amount with
  | none => Except.error ProcessingError.InvalidAmount
  | some amount_f64 =>
    match s.get_rates amount_f64 db with
    | Except.error e => Except.error e
    | Except.ok rates => Except.ok (taxFold amount rates)

/-! ## Test fixtures -/

/-- A threshold-free export config used to fill mandatory fields. -/
def cfgExport : TaxRuleConfig :=
  ⟨TaxCalculationType.ZeroRated, none, none, none, none, none, none, none⟩

/-- Config with an active general threshold triple whose above-treatment
differs from its default treatment. -/
def cfgC1 : TaxRuleConfig :=
  ⟨TaxCalculationType.Origin, some TaxCalculationType.ZeroRated,
   some TaxCalculationType.Destination, some 100, none, none, none, none⟩

/-- Config with an active digital threshold triple and no general triple. -/
def cfgC1d : TaxRuleConfig :=
  ⟨TaxCalculationType.Origin, none, none, none,
   some TaxCalculationType.ZeroRated, some TaxCalculationType.Destination,
   some 100, none⟩

/-! ## C1: threshold evaluation in `by_threshold` and
`by_digital_product_threshold` -/

/-- C1 counterexample: the claim says that when `ignore_threshold` is true
the config's unconditional default treatment is returned, but on a config
whose threshold triple is active (`cfgC1`: default `Origin`, below
`ZeroRated`, above `Destination`, threshold 100) the code returns the
above-threshold treatment `Destination`, not the default `Origin` — for
both the general and the digital triple. -/
theorem C1_counterexample :
    cfgC1.below_threshold.isSome = true ∧ cfgC1.above_threshold.isSome = true ∧
    cfgC1.threshold.isSome = true ∧
    cfgC1.by_threshold 50 true = TaxCalculationType.Destination ∧
    cfgC1.type = TaxCalculationType.Origin ∧
    cfgC1.by_threshold 50 true ≠ cfgC1.type ∧
    cfgC1d.by_digital_product_threshold 50 true
      = TaxCalculationType.Destination ∧
    cfgC1d.by_digital_product_threshold 50 true ≠ cfgC1d.type := by
  decide

/-- C1 (amended): the threshold triple is active only when below-treatment,
above-treatment and numeric threshold are all present.  When the triple is
active and `ignore_threshold` is false, `by_threshold` returns the
below-treatment if `amount < threshold` and the above-treatment otherwise;
when the triple is active and `ignore_threshold` is true it returns the
above-threshold treatment; only when the triple is inactive does it return
the config's unconditional default treatment.  The same holds for the
digital-product triple in `by_digital_product_threshold`. -/
theorem C1_threshold_spec (c : TaxRuleConfig) (amount : ℕ) (ig : Bool) :
    (∀ b a t, c.below_threshold = some b → c.above_threshold = some a →
      c.threshold = some t →
      c.by_threshold amount ig =
        (if amount < t ∧ ig = false then b else a)) ∧
    ((c.below_threshold = none ∨ c.above_threshold = none ∨
        c.threshold = none) →
      c.by_threshold amount ig = c.type) ∧
    (∀ b a t, c.below_threshold_digital_products = some b →
      c.above_threshold_digital_products = some a →
      c.threshold_digital_products = some t →
      c.by_digital_product_threshold amount ig =
        (if amount < t ∧ ig = false then b else a)) ∧
    ((c.below_threshold_digital_products = none ∨
        c.above_threshold_digital_products = none ∨
        c.threshold_digital_products = none) →
      c.by_digital_product_threshold amount ig = c.type) := by
  refine ⟨?_, ?_, ?_, ?_⟩
  · intro b a t hb ha ht
    simp [TaxRuleConfig.by_threshold, hb, ha, ht]
  · intro h
    rcases h with h | h | h <;>
      simp [TaxRuleConfig.by_threshold, h]
  · intro b a t hb ha ht
    simp [TaxRuleConfig.by_digital_product_threshold, hb, ha, ht]
  · intro h
    rcases h with h | h | h <;>
      simp [TaxRuleConfig.by_digital_product_threshold, h]

/-- C1 witness: the amended statement evaluated on `cfgC1` at amount 50
below the threshold with `ignore_threshold = false`, and on the inactive
digital triple of `cfgC1`. -/
theorem C1_threshold_spec_witness :
    cfgC1.by_threshold 50 false = TaxCalculationType.ZeroRated ∧
    cfgC1.by_digital_product_threshold 50 false = TaxCalculationType.Origin := by
  constructor
  · have h := (C1_threshold_spec cfgC1 50 false).1 _ _ _ rfl rfl rfl
    simpa using h
  · exact (C1_threshold_spec cfgC1 50 false).2.2.2 (Or.inl rfl)

/-! ## C6: explicit trade-agreement overrides -/

/-- C6: an explicit `UseAgreement(id)` override fails with
`TradeAgreementNotFound id` when `id` is not in the store and returns the
stored agreement (regardless of countries) when it is; an explicit
`NoAgreement` override resolves to no agreement unconditionally. -/
theorem C6_override (s : TaxScenario) (db : TaxDatabase) :
    (∀ id, s.trade_agreement_override =
        some (TradeAgreementOverride.UseAgreement id) →
      (db.trade_agreements.lookup id = none →
        s.determine_rule db =
          Except.error (DatabaseError.TradeAgreementNotFound id)) ∧
      (∀ ag, db.trade_agreements.lookup id = some ag →
        s.determine_rule db = Except.ok (some ag))) ∧
    (s.trade_agreement_override = some TradeAgreementOverride.NoAgreement →
      s.determine_rule db = Except.ok none) := by
  refine ⟨?_, ?_⟩
  · intro id hov
    refine ⟨fun hl => ?_, fun ag hl => ?_⟩ <;>
      simp [TaxScenario.determine_rule, hov, TaxDatabase.get_rule, hl]
  · intro hov
    simp [TaxScenario.determine_rule, hov]

/-- Fixture agreement for the C6 witness. -/
def agEU : TradeAgreement :=
  ⟨"European Union", TradeAgreementType.CustomsUnion, ["DE", "FR"], true,
   ⟨true, true, true⟩, ⟨none, none, cfgExport⟩⟩

/-- Fixture store for the C6 witness. -/
def dbC6 : TaxDatabase := ⟨[], [("EU", agEU)]⟩

/-- Fixture scenario with an override naming a stored agreement. -/
def scC6hit : TaxScenario :=
  ⟨⟨"US", none⟩, ⟨"JP", none⟩, TransactionType.B2B,
   some (TradeAgreementOverride.UseAgreement "EU"), false, false, false, none⟩

/-- Fixture scenario with an override naming a missing agreement. -/
def scC6miss : TaxScenario :=
  ⟨⟨"DE", none⟩, ⟨"FR", none⟩, TransactionType.B2B,
   some (TradeAgreementOverride.UseAgreement "NAFTA"), false, false, false,
   none⟩

/-- Fixture scenario with a `NoAgreement` override. -/
def scC6no : TaxScenario :=
  ⟨⟨"DE", none⟩, ⟨"FR", none⟩, TransactionType.B2B,
   some TradeAgreementOverride.NoAgreement, false, false, false, none⟩

/-- C6 witness: the three override behaviours on concrete fixtures — a hit
returns the stored agreement even though the scenario's countries are not
members, a miss fails with the id, and `NoAgreement` yields none. -/
theorem C6_override_witness :
    scC6hit.determine_rule dbC6 = Except.ok (some agEU) ∧
    scC6miss.determine_rule dbC6 =
      Except.error (DatabaseError.TradeAgreementNotFound "NAFTA") ∧
    scC6no.determine_rule dbC6 = Except.ok none := by
  refine ⟨?_, ?_, ?_⟩
  · exact ((C6_override scC6hit dbC6).1 "EU" rfl).2 agEU rfl
  · exact ((C6_override scC6miss dbC6).1 "NAFTA" rfl).1 rfl
  · exact (C6_override scC6no dbC6).2 rfl

/-! ## C7: defaults when no agreement resolves -/

/-- C7: when trade-agreement resolution yields no agreement, the
classifier returns `Origin` whenever source and destination share a
country (for B2B and B2C alike, since the statement quantifies over all
scenarios) and `ZeroRated` when the countries differ. -/
theorem C7_no_agreement (s : TaxScenario) (db : TaxDatabase) (amount : ℚ)
    (h : s.determine_rule db = Except.ok none) :
    (s.is_same_country = true →
      s.determine_calculation_type db amount =
        Except.ok TaxCalculationType.Origin) ∧
    (s.is_same_country = false →
      s.determine_calculation_type db amount =
        Except.ok TaxCalculationType.ZeroRated) := by
  constructor
  · intro hsame
    simp [TaxScenario.determine_calculation_type, h, hsame]
    cases s.transaction_type <;> simp
  · intro hdiff
    simp [TaxScenario.determine_calculation_type, h, hdiff]

/-- Fixture for the C7 witness: same-country scenario. -/
def scC7a : TaxScenario :=
  ⟨⟨"DE", none⟩, ⟨"DE", none⟩, TransactionType.B2C, none, false, false,
   false, none⟩

/-- Fixture for the C7 witness: cross-country scenario. -/
def scC7b : TaxScenario :=
  ⟨⟨"DE", none⟩, ⟨"JP", none⟩, TransactionType.B2B, none, false, false,
   false, none⟩

/-- C7 witness: concrete same-country and cross-country scenarios against
an empty store. -/
theorem C7_no_agreement_witness :
    scC7a.determine_calculation_type ⟨[], []⟩ 100 =
      Except.ok TaxCalculationType.Origin ∧
    scC7b.determine_calculation_type ⟨[], []⟩ 100 =
      Except.ok TaxCalculationType.ZeroRated := by
  constructor
  · exact (C7_no_agreement scC7a ⟨[], []⟩ 100 rfl).1 rfl
  · exact (C7_no_agreement scC7b ⟨[], []⟩ 100 rfl).2 rfl

/-! ## C2: federal-state agreement, B2C, non-HST/QC destination -/

/-- Fixture config for C2: active triple with below-treatment `Origin`. -/
def cfgC2 : TaxRuleConfig :=
  ⟨TaxCalculationType.Destination, some TaxCalculationType.Origin,
   some TaxCalculationType.Destination, some 100, none, none, none, none⟩

/-- Fixture federal agreement for C2, keyed like a US-style federation. -/
def agC2 : TradeAgreement :=
  ⟨"United States", TradeAgreementType.FederalState, ["US"], true,
   ⟨true, true, true⟩, ⟨none, some cfgC2, cfgExport⟩⟩

/-- Fixture store for C2. -/
def dbC2 : TaxDatabase := ⟨[], [("US", agC2)]⟩

/-- Fixture scenario for C2: domestic US B2C, below the threshold. -/
def scC2 : TaxScenario :=
  ⟨⟨"US", none⟩, ⟨"US", none⟩, TransactionType.B2C, none, false, false,
   false, none⟩

/-- C2 counterexample: the claim says B2C classification under a
federal-state agreement with a non-HST/QC destination evaluates the
`internal_b2c` config's threshold rule, which at amount 50 (below the
threshold 100, `ignore_threshold` false) would yield the configured
below-treatment `Origin`; the code instead returns the hardcoded
`ZeroRated` from its below-threshold early return. -/
theorem C2_counterexample :
    cfgC2.below_threshold = some TaxCalculationType.Origin ∧
    cfgC2.threshold = some 100 ∧
    agC2.type = TradeAgreementType.FederalState ∧
    scC2.determine_calculation_type dbC2 50 =
      Except.ok TaxCalculationType.ZeroRated ∧
    TaxCalculationType.ZeroRated ≠ TaxCalculationType.Origin := by
  refine ⟨rfl, rfl, rfl, ?_, by decide⟩
  rfl

/-- C2 (amended): under a federal-state agreement with a destination that
is not a Canadian HST province or Quebec, B2C classification uses
`internal_b2c`; when the config is present, if `ignore_threshold` is
false and the amount is below the config's threshold (`u32::MAX` when the
threshold is absent) the result is the hardcoded `ZeroRated`, and
otherwise the config's `by_threshold` result (the above-threshold
treatment when the triple is active, the default treatment when it is
not); when `internal_b2c` is absent the result is `Destination`. -/
theorem C2_federal_b2c (s : TaxScenario) (ag : TradeAgreement) (amount : ℚ)
    (hfed : ag.type = TradeAgreementType.FederalState)
    (hca : s.ca_hst_or_qc = false)
    (hb2c : s.transaction_type = TransactionType.B2C) :
    (ag.tax_rules.internal_b2c = none →
      s.get_calculation_type_from_agreement ag amount =
        Except.ok TaxCalculationType.Destination) ∧
    (∀ rule, ag.tax_rules.internal_b2c = some rule →
      s.get_calculation_type_from_agreement ag amount =
        Except.ok
          (if s.ignore_threshold = false ∧
              amount < ((rule.threshold.getD 4294967295 : ℕ) : ℚ) then
            TaxCalculationType.ZeroRated
          else
            rule.by_threshold (f64_as_u32 amount) s.ignore_threshold)) := by
  have hint : ag.is_international = false := by
    simp [TradeAgreement.is_international, hfed]
  have hf : ag.is_federal = true := by
    simp [TradeAgreement.is_federal, hfed]
  constructor
  · intro hnone
    simp [TaxScenario.get_calculation_type_from_agreement, hint, hf, hca,
      hb2c, hnone]
  · intro rule hrule
    simp only [TaxScenario.get_calculation_type_from_agreement, hint, hf,
      hca, hb2c, hrule]
    by_cases h : s.ignore_threshold = false ∧
        amount < ((rule.threshold.getD 4294967295 : ℕ) : ℚ)
    · simp [h]
    · simp [h]

/-- C2 witness: the amended statement on the concrete fixtures — at
amount 50 the hardcoded `ZeroRated` fires, at amount 200 the active
triple's above-treatment `Destination` is returned, and with the config
removed the result is `Destination`. -/
theorem C2_federal_b2c_witness :
    scC2.get_calculation_type_from_agreement agC2 50 =
      Except.ok TaxCalculationType.ZeroRated ∧
    scC2.get_calculation_type_from_agreement agC2 200 =
      Except.ok TaxCalculationType.Destination ∧
    scC2.get_calculation_type_from_agreement
        ⟨"United States", TradeAgreementType.FederalState, ["US"], true,
         ⟨true, true, true⟩, ⟨none, none, cfgExport⟩⟩ 50 =
      Except.ok TaxCalculationType.Destination := by
  refine ⟨?_, ?_, ?_⟩
  · have h := (C2_federal_b2c scC2 agC2 50 rfl rfl rfl).2 cfgC2 rfl
    rw [h]
    norm_num [scC2, cfgC2]
  · have h := (C2_federal_b2c scC2 agC2 200 rfl rfl rfl).2 cfgC2 rfl
    rw [h]
    norm_num [scC2, cfgC2, TaxRuleConfig.by_threshold, f64_as_u32]
  · exact (C2_federal_b2c scC2 _ 50 rfl rfl rfl).1 rfl

/-! ## C3: the aggregation fold and the rounding contract -/

/-- The aggregation algorithm as worded by the spec: total starts at 0;
for each component in list order, `delta = compound ? rate * (amount +
total) : rate * amount`; `total += delta`.  Stated independently of the
code's `foldl` so the code can be proved to refine it. -/
def specAggregate (amount : ℚ) : ℚ → List TaxRate → ℚ
  | total, [] => total
  | total, component :: rest =>
      specAggregate amount
        (total +
          (if component.compound then component.rate * (amount + total)
           else component.rate * amount))
        rest

/-- The code's fold with an arbitrary accumulator agrees with the spec's
accumulation loop. -/
theorem specAggregate_eq_foldl (amount : ℚ) (rates : List TaxRate) :
    ∀ total : ℚ,
      specAggregate amount total rates =
        rates.foldl
          (fun total_tax rate =>
            total_tax +
              (if rate.compound then (amount + total_tax) * rate.rate
               else amount * rate.rate))
          total := by
  induction rates with
  | nil => intro t; rfl
  | cons r rs ih =>
      intro t
      rw [List.foldl_cons, specAggregate, ih]
      congr 1
      cases hr : r.compound <;> simp [mul_comm]

/-- `taxFold` is the spec's aggregation started at total 0. -/
theorem taxFold_eq_specAggregate (amount : ℚ) (rates : List TaxRate) :
    taxFold amount rates = specAggregate amount 0 rates := by
  rw [taxFold, specAggregate_eq_foldl]

/-- C3: whenever `get_rates` succeeds, `calculate_tax` returns the spec's
in-order fold (total `0`, `delta = compound ? rate * (amount + total) :
rate * amount`) rounded to two fractional digits by `rustRound`, while
`calculate_tax_decimal` (with a conversion that is exact on the amount)
returns the same fold unrounded; `rustRound` is round-half-away-from-zero:
it is within 1/2 of its argument and sends the ties `k + 1/2` and
`-(k + 1/2)` away from zero. -/
theorem C3_aggregation (s : TaxScenario) (db : TaxDatabase) (amount : ℚ)
    (rates : List TaxRate)
    (h : s.get_rates amount db = Except.ok rates) :
    s.calculate_tax amount db =
      Except.ok ((rustRound (specAggregate amount 0 rates * 100) : ℚ) / 100) ∧
    (∀ to_f64 : ℚ → Option ℚ, to_f64 amount = some amount →
      s.calculate_tax_decimal to_f64 amount db =
        Except.ok (specAggregate amount 0 rates)) ∧
    (∀ q : ℚ, |(rustRound q : ℚ) - q| ≤ 1/2) ∧
    (∀ k : ℕ, rustRound ((k : ℚ) + 1/2) = (k : ℤ) + 1 ∧
      rustRound (-((k : ℚ) + 1/2)) = -((k : ℤ) + 1)) := by
  refine ⟨?_, ?_, ?_, ?_⟩
  · simp [TaxScenario.calculate_tax, h, roundTo2, taxFold_eq_specAggregate]
  · intro to_f64 hconv
    simp [TaxScenario.calculate_tax_decimal, hconv, h,
      taxFold_eq_specAggregate]
  · intro q
    rw [rustRound]
    by_cases hq : 0 ≤ q
    · rw [if_pos hq]
      have h1 : (⌊q + 1/2⌋ : ℚ) ≤ q + 1/2 := Int.floor_le _
      have h2 : q + 1/2 < (⌊q + 1/2⌋ : ℚ) + 1 := Int.lt_floor_add_one _
      rw [abs_le]
      constructor <;> linarith
    · rw [if_neg hq]
      have h1 : (⌊-q + 1/2⌋ : ℚ) ≤ -q + 1/2 := Int.floor_le _
      have h2 : -q + 1/2 < (⌊-q + 1/2⌋ : ℚ) + 1 := Int.lt_floor_add_one _
      rw [abs_le]
      push_cast
      constructor <;> linarith
  · intro k
    constructor
    · have hpos : (0 : ℚ) ≤ (k : ℚ) + 1/2 := by positivity
      rw [rustRound, if_pos hpos]
      have : (k : ℚ) + 1/2 + 1/2 = ((k + 1 : ℤ) : ℚ) := by push_cast; ring
      rw [this, Int.floor_intCast]
    · have hneg : ¬(0 : ℚ) ≤ -((k : ℚ) + 1/2) := by
        simp only [not_le, neg_lt, neg_zero]
        positivity
      rw [rustRound, if_neg hneg]
      have : -(-((k : ℚ) + 1/2)) + 1/2 = ((k + 1 : ℤ) : ℚ) := by
        push_cast; ring
      rw [this, Int.floor_intCast]

/-- Fixture country for witnesses: Germany, VAT with standard rate 19%. -/
def countryDE : Country :=
  ⟨TaxSystemType.Vat, "EUR", 19/100, some (7/100), none, none, none,
   some "Mehrwertsteuer", some "MwSt", none⟩

/-- Fixture store holding only Germany and no agreements. -/
def dbDE : TaxDatabase := ⟨[("DE", countryDE)], []⟩

/-- Fixture scenario: domestic German B2C sale. -/
def scDE : TaxScenario :=
  ⟨⟨"DE", none⟩, ⟨"DE", none⟩, TransactionType.B2C, none, false, false,
   false, none⟩

/-- The component list the fixtures produce. -/
def ratesDE : List TaxRate := [⟨19/100, TaxType.VAT VatRate.Standard, false⟩]

/-- C3 witness: on the German fixture at amount 100, the floating path
returns the rounded spec fold and the decimal path the unrounded one. -/
theorem C3_aggregation_witness :
    scDE.calculate_tax 100 dbDE =
      Except.ok ((rustRound (specAggregate 100 0 ratesDE * 100) : ℚ) / 100) ∧
    scDE.calculate_tax_decimal (fun q => some q) 100 dbDE =
      Except.ok (specAggregate 100 0 ratesDE) := by
  have h := C3_aggregation scDE dbDE 100 ratesDE rfl
  exact ⟨h.1, h.2.1 (fun q => some q) rfl⟩

/-! ## C9: monotonicity of the compounding fold -/

/-- A compounding component with positive rate for the C9 counterexample. -/
def compC9 : TaxRate := ⟨1, TaxType.GST, true⟩

/-- C9 counterexample: the claim quantifies over every amount, but for a
negative amount appending a compounding component with positive rate
strictly decreases the fold's total. -/
theorem C9_counterexample :
    (0 : ℚ) < compC9.rate ∧ compC9.compound = true ∧
    taxFold (-100) ([] ++ [compC9]) < taxFold (-100) [] := by
  refine ⟨by norm_num [compC9], rfl, ?_⟩
  norm_num [taxFold, compC9]

/-- Accumulator form of nonnegativity for the aggregation fold. -/
theorem taxFold_foldl_nonneg (amount : ℚ) (hamount : 0 ≤ amount) :
    ∀ rates : List TaxRate, (∀ r ∈ rates, 0 ≤ r.rate) →
      ∀ total : ℚ, 0 ≤ total →
        0 ≤ rates.foldl
          (fun total_tax rate =>
            total_tax +
              (if rate.compound then (amount + total_tax) * rate.rate
               else amount * rate.rate))
          total := by
  intro rates
  induction rates with
  | nil => intro _ t ht; simpa using ht
  | cons r rs ih =>
      intro hr t ht
      rw [List.foldl_cons]
      apply ih fun x hx => hr x (List.mem_cons_of_mem _ hx)
      have hrr : 0 ≤ r.rate := hr r (List.mem_cons_self _ _)
      cases hc : r.compound
      · simpa [hc] using
          add_nonneg ht (mul_nonneg hamount hrr)
      · simpa [hc] using
          add_nonneg ht (mul_nonneg (add_nonneg hamount ht) hrr)

/-- The fold of a nonnegative amount over nonnegative rates is
nonnegative. -/
theorem taxFold_nonneg (amount : ℚ) (rates : List TaxRate)
    (hamount : 0 ≤ amount) (hrates : ∀ r ∈ rates, 0 ≤ r.rate) :
    0 ≤ taxFold amount rates :=
  taxFold_foldl_nonneg amount hamount rates hrates 0 le_rfl

/-- C9 (amended): for every nonnegative amount and every component list
with positive rates, appending a compounding component with positive rate
never decreases the total produced by the aggregation fold. -/
theorem C9_compound_monotone (amount : ℚ) (comps : List TaxRate)
    (c : TaxRate) (hamount : 0 ≤ amount)
    (hrates : ∀ r ∈ comps, 0 < r.rate) (hc : 0 < c.rate)
    (hcompound : c.compound = true) :
    taxFold amount comps ≤ taxFold amount (comps ++ [c]) := by
  have hkey : taxFold amount (comps ++ [c]) =
      taxFold amount comps + (amount + taxFold amount comps) * c.rate := by
    rw [taxFold, taxFold, List.foldl_append]
    simp [hcompound]
  have hT : 0 ≤ taxFold amount comps :=
    taxFold_nonneg amount comps hamount fun r hr => (hrates r hr).le
  rw [hkey]
  nlinarith [mul_nonneg (add_nonneg hamount hT) hc.le]

/-- C9 witness: GST then a compounding PST on amount 100. -/
theorem C9_compound_monotone_witness :
    taxFold 100 [⟨5/100, TaxType.GST, false⟩] ≤
      taxFold 100 ([⟨5/100, TaxType.GST, false⟩] ++
        [⟨7/100, TaxType.PST, true⟩]) := by
  refine C9_compound_monotone 100 [⟨5/100, TaxType.GST, false⟩]
    ⟨7/100, TaxType.PST, true⟩ (by norm_num) ?_ (by norm_num) rfl
  intro r hr
  rcases List.mem_singleton.mp hr with rfl
  norm_num

/-! ## C10: the decimal path classifies at the converted amount -/

/-- `get_calculation_type_from_agreement` never fails. -/
theorem gcta_no_error (s : TaxScenario) (ag : TradeAgreement) (amount : ℚ)
    (e : ProcessingError) :
    s.get_calculation_type_from_agreement ag amount ≠ Except.error e := by
  intro hres
  unfold TaxScenario.get_calculation_type_from_agreement at hres
  repeat' split at hres
  all_goals simp at hres

/-- Every failure of `determine_calculation_type` is a wrapped
`DatabaseError`. -/
theorem determine_calculation_type_error (s : TaxScenario)
    (db : TaxDatabase) (amount : ℚ) (e : ProcessingError)
    (h : s.determine_calculation_type db amount = Except.error e) :
    ∃ d, e = ProcessingError.DatabaseError d := by
  unfold TaxScenario.determine_calculation_type at h
  cases hr : s.determine_rule db with
  | error d =>
      rw [hr] at h
      simp at h
      exact ⟨d, h.symm⟩
  | ok oag =>
      rw [hr] at h
      cases oag with
      | none =>
          cases hsc : s.is_same_country with
          | true => cases htr : s.transaction_type <;> simp [hsc, htr] at h
          | false => simp [hsc] at h
      | some ag =>
          have hg : s.get_calculation_type_from_agreement ag amount =
              Except.error e := by simpa using h
          exact absurd hg (gcta_no_error s ag amount e)

/-- Every failure of `get_regional_rates` is a wrapped `DatabaseError`. -/
theorem get_regional_rates_error (s : TaxScenario)
    (ct : TaxCalculationType) (db : TaxDatabase) (e : ProcessingError)
    (h : s.get_regional_rates ct db = Except.error e) :
    ∃ d, e = ProcessingError.DatabaseError d := by
  unfold TaxScenario.get_regional_rates at h
  repeat' split at h
  all_goals first
    | exact ⟨_, (Except.error.inj h).symm⟩
    | exact ⟨_, h.symm⟩
    | simp at h

/-- Every failure of `get_rates` is a wrapped `DatabaseError`; in
particular `get_rates` never produces `InvalidAmount`. -/
theorem get_rates_error (s : TaxScenario) (amount : ℚ) (db : TaxDatabase)
    (e : ProcessingError) (h : s.get_rates amount db = Except.error e) :
    ∃ d, e = ProcessingError.DatabaseError d := by
  unfold TaxScenario.get_rates at h
  cases hct : s.determine_calculation_type db amount with
  | error e' =>
      rw [hct] at h
      simp at h
      rw [h] at hct
      exact determine_calculation_type_error s db amount e hct
  | ok ct =>
      rw [hct] at h
      simp only at h
      split at h
      · simp at h
      · cases hc : db.get_country s.destination_region.country with
        | error d =>
            rw [hc] at h
            simp at h
            exact ⟨d, h.symm⟩
        | ok country =>
            rw [hc] at h
            simp only at h
            cases ct with
            | ReverseCharge =>
                cases htt : country.tax_type <;> simp [htt] at h <;>
                  exact get_regional_rates_error s _ db e h
            | ZeroRated =>
                cases htt : country.tax_type <;> simp [htt] at h
            | Exempt =>
                cases htt : country.tax_type <;> simp [htt] at h <;>
                  exact get_regional_rates_error s _ db e h
            | Origin =>
                simp at h
                exact get_regional_rates_error s _ db e h
            | Destination =>
                simp at h
                exact get_regional_rates_error s _ db e h
            | NoneType =>
                simp at h
                exact get_regional_rates_error s _ db e h
            | ThresholdBased =>
                simp at h
                exact get_regional_rates_error s _ db e h

/-- C10: `calculate_tax_decimal` fails with `InvalidAmount` exactly when
the amount cannot be converted to an `f64`; otherwise it aggregates the
component list `get_rates` returns for the converted amount, so any two
decimal amounts with the same conversion select identical components. -/
theorem C10_decimal_float_coupling (s : TaxScenario) (db : TaxDatabase)
    (to_f64 : ℚ → Option ℚ) (a : ℚ) :
    (s.calculate_tax_decimal to_f64 a db =
        Except.error ProcessingError.InvalidAmount ↔ to_f64 a = none) ∧
    (∀ q, to_f64 a = some q →
      s.calculate_tax_decimal to_f64 a db =
        (match s.get_rates q db with
         | Except.error e => Except.error e
         | Except.ok rates => Except.ok (taxFold a rates))) ∧
    (∀ a2 q q2, to_f64 a = some q → to_f64 a2 = some q2 →
      to_f64 a = to_f64 a2 → s.get_rates q db = s.get_rates q2 db) := by
  refine ⟨⟨?_, ?_⟩, ?_, ?_⟩
  · intro h
    cases hconv : to_f64 a with
    | none => rfl
    | some q =>
        exfalso
        rw [TaxScenario.calculate_tax_decimal, hconv] at h
        simp only at h
        cases hr : s.get_rates q db with
        | error e' =>
            rw [hr] at h
            simp at h
            obtain ⟨d, hd⟩ := get_rates_error s q db e' hr
            rw [h] at hd
            simp at hd
        | ok rates =>
            rw [hr] at h
            simp at h
  · intro h
    rw [TaxScenario.calculate_tax_decimal, h]
  · intro q hconv
    rw [TaxScenario.calculate_tax_decimal, hconv]
  · intro a2 q q2 h1 h2 heq
    rw [h1, h2] at heq
    obtain rfl : q = q2 := Option.some.inj heq
    rfl

/-- C10 witness: a conversion that always fails triggers `InvalidAmount`,
and the identity conversion selects the fixture's component list. -/
theorem C10_decimal_float_coupling_witness :
    scDE.calculate_tax_decimal (fun _ => none) 100 dbDE =
      Except.error ProcessingError.InvalidAmount ∧
    scDE.calculate_tax_decimal (fun q => some q) 100 dbDE =
      Except.ok (taxFold 100 ratesDE) := by
  constructor
  · exact (C10_decimal_float_coupling scDE dbDE (fun _ => none) 100).1.mpr
      rfl
  · have h :=
      (C10_decimal_float_coupling scDE dbDE (fun q => some q) 100).2.1
        100 rfl
    rw [h]
    rfl

/-! ## C5: treatment dispatch in `get_rates` -/

/-- Fixture config whose default treatment is `ReverseCharge`. -/
def cfgRC : TaxRuleConfig :=
  ⟨TaxCalculationType.ReverseCharge, none, none, none, none, none, none,
   none⟩

/-- Fixture customs union between US and DE whose B2B rule classifies as
`ReverseCharge`. -/
def agC5 : TradeAgreement :=
  ⟨"Test union", TradeAgreementType.CustomsUnion, ["US", "DE"], true,
   ⟨true, true, true⟩, ⟨some cfgRC, none, cfgExport⟩⟩

/-- Fixture store for C5. -/
def dbC5 : TaxDatabase := ⟨[("DE", countryDE)], [("X", agC5)]⟩

/-- Fixture scenario for the C5 counterexample: US seller, German buyer,
B2B with a resale certificate, explicit override to the test union. -/
def scC5 : TaxScenario :=
  ⟨⟨"US", none⟩, ⟨"DE", none⟩, TransactionType.B2B,
   some (TradeAgreementOverride.UseAgreement "X"), false, true, false, none⟩

/-- C5 counterexample: classification succeeds with `ReverseCharge` and
the destination is a VAT country, yet `get_rates` returns the empty list
instead of the single zero-rate `VAT(ReverseCharge)` component, because
the US-B2B-resale-certificate pre-check empties the result first. -/
theorem C5_counterexample :
    scC5.determine_calculation_type dbC5 100 =
      Except.ok TaxCalculationType.ReverseCharge ∧
    dbC5.get_country scC5.destination_region.country =
      Except.ok countryDE ∧
    countryDE.tax_type = TaxSystemType.Vat ∧
    scC5.get_rates 100 dbC5 = Except.ok [] ∧
    ([] : List TaxRate) ≠ [⟨0, TaxType.VAT VatRate.ReverseCharge, false⟩] := by
  refine ⟨rfl, rfl, rfl, rfl, by decide⟩

/-- C5 (amended): for every scenario whose classification succeeds and
which does not hit the US-B2B-resale-certificate pre-check (that
pre-check returns an empty component list before the treatment dispatch):
under `ReverseCharge` a VAT destination yields exactly the zero-rate
`VAT(ReverseCharge)` component and a non-VAT destination falls through to
regional lookup; under `ZeroRated` a VAT destination yields the zero-rate
`VAT(Zero)` component and a non-VAT destination the empty list; under
`Exempt` a VAT destination yields the zero-rate `VAT(Exempt)` component
and a non-VAT destination falls through to regional lookup. -/
theorem C5_treatment_dispatch (s : TaxScenario) (db : TaxDatabase)
    (amount : ℚ) (ct : TaxCalculationType) (country : Country)
    (hct : s.determine_calculation_type db amount = Except.ok ct)
    (hcountry : db.get_country s.destination_region.country =
      Except.ok country)
    (hpre : ¬(s.source_region.country = "US" ∧
      s.transaction_type = TransactionType.B2B ∧
      s.has_resale_certificate = true)) :
    (ct = TaxCalculationType.ReverseCharge →
      (country.tax_type = TaxSystemType.Vat →
        s.get_rates amount db =
          Except.ok [⟨0, TaxType.VAT VatRate.ReverseCharge, false⟩]) ∧
      (country.tax_type ≠ TaxSystemType.Vat →
        s.get_rates amount db = s.get_regional_rates ct db)) ∧
    (ct = TaxCalculationType.ZeroRated →
      (country.tax_type = TaxSystemType.Vat →
        s.get_rates amount db =
          Except.ok [⟨0, TaxType.VAT VatRate.Zero, false⟩]) ∧
      (country.tax_type ≠ TaxSystemType.Vat →
        s.get_rates amount db = Except.ok [])) ∧
    (ct = TaxCalculationType.Exempt →
      (country.tax_type = TaxSystemType.Vat →
        s.get_rates amount db =
          Except.ok [⟨0, TaxType.VAT VatRate.Exempt, false⟩]) ∧
      (country.tax_type ≠ TaxSystemType.Vat →
        s.get_rates amount db = s.get_regional_rates ct db)) := by
  refine ⟨?_, ?_, ?_⟩ <;> rintro rfl <;> constructor
  · intro hv
    simp [TaxScenario.get_rates, hct, hcountry, hpre, hv]
  · intro hnv
    cases htt : country.tax_type
    case Vat => exact absurd htt hnv
    all_goals simp [TaxScenario.get_rates, hct, hcountry, hpre, htt]
  · intro hv
    simp [TaxScenario.get_rates, hct, hcountry, hpre, hv]
  · intro hnv
    cases htt : country.tax_type
    case Vat => exact absurd htt hnv
    all_goals simp [TaxScenario.get_rates, hct, hcountry, hpre, htt]
  · intro hv
    simp [TaxScenario.get_rates, hct, hcountry, hpre, hv]
  · intro hnv
    cases htt : country.tax_type
    case Vat => exact absurd htt hnv
    all_goals simp [TaxScenario.get_rates, hct, hcountry, hpre, htt]

/-- Fixture scenario for the C5 witness: same as `scC5` but without the
resale certificate, so the pre-check does not fire. -/
def scC5b : TaxScenario :=
  ⟨⟨"US", none⟩, ⟨"DE", none⟩, TransactionType.B2B,
   some (TradeAgreementOverride.UseAgreement "X"), false, false, false,
   none⟩

/-- C5 witness: without the certificate the reverse-charge component is
emitted for the VAT destination. -/
theorem C5_treatment_dispatch_witness :
    scC5b.get_rates 100 dbC5 =
      Except.ok [⟨0, TaxType.VAT VatRate.ReverseCharge, false⟩] := by
  exact ((C5_treatment_dispatch scC5b dbC5 100
    TaxCalculationType.ReverseCharge countryDE rfl rfl (by decide)).1
    rfl).1 rfl

/-! ## C4: Canada-style layered rate composition -/

/-- Modelled from the spec: the reference data file `vat_rates.json` is
not under `src/`; British Columbia's provincial profile (PST at 7%) is
taken from spec scenario 4 ("5% GST non-compounding + 7% PST compounding
on 105000"). -/
def stateBC : State := ⟨7/100, TaxSystemType.Pst⟩

/-- Modelled from the spec: Canada's country profile from `vat_rates.json`
(not under `src/`) — GST system, standard rate 5%, with the British
Columbia subdivision. -/
def countryCA : Country :=
  ⟨TaxSystemType.Gst, "CAD", 5/100, none, none, none, none, none, none,
   some [("CA-BC", stateBC)]⟩

/-- Modelled from the spec: the Canadian federal agreement's
`internal_b2c` rule from `trade_agreements.json` (not under `src/`) — a
nexus threshold below which remote B2C sales are zero-rated and above
which they are destination-taxed (spec: "above threshold, or
`ignore_threshold=true`" yields tax). -/
def cfgCAb2c : TaxRuleConfig :=
  ⟨TaxCalculationType.Destination, some TaxCalculationType.ZeroRated,
   some TaxCalculationType.Destination, some 30000, none, none, none, none⟩

/-- Modelled from the spec: the Canadian federal-state trade agreement
from `trade_agreements.json` (not under `src/`). -/
def agCA : TradeAgreement :=
  ⟨"Canada", TradeAgreementType.FederalState, ["CA"], true,
   ⟨true, true, true⟩, ⟨none, some cfgCAb2c, cfgExport⟩⟩

/-- Store with the modelled Canadian data. -/
def dbCA : TaxDatabase := ⟨[("CA", countryCA)], [("CA", agCA)]⟩

/-- Fixture scenario: B2C sale within British Columbia, amount above the
nexus threshold. -/
def scCA : TaxScenario :=
  ⟨⟨"CA", some "CA-BC"⟩, ⟨"CA", some "CA-BC"⟩, TransactionType.B2C, none,
   false, false, false, none⟩

/-- C4: in a Canada-style layered system (country kind Gst/Pst/Hst/Qst,
country code other than the specially-handled `US`), a regional lookup
with a subdivision profile present yields: for an `Hst` subdivision
exactly one non-compounding HST component at the subdivision rate; for a
`Qst` subdivision the country's non-compounding GST followed by a
compounding QST at the subdivision rate; for a `Pst` subdivision GST
followed by a compounding PST; for any other subdivision kind, or with no
subdivision given, GST only.  And on the modelled Canadian data,
source=destination=CA/CA-BC, B2C, amount 100000 (above the threshold)
computes tax 12350. -/
theorem C4_gst_layering (db : TaxDatabase) (code : String)
    (country : Country) (region_code : String)
    (states : List (String × State)) (st : State) (vr : Option VatRate)
    (hcode : code ≠ "US")
    (hcountry : db.get_country code = Except.ok country)
    (hkind : country.tax_type = TaxSystemType.Gst ∨
      country.tax_type = TaxSystemType.Pst ∨
      country.tax_type = TaxSystemType.Hst ∨
      country.tax_type = TaxSystemType.Qst)
    (hstates : country.states = some states)
    (hst : states.lookup region_code = some st) :
    (st.tax_type = TaxSystemType.Hst →
      db.get_rate code (some region_code) vr =
        Except.ok [⟨st.standard_rate, TaxType.HST, false⟩]) ∧
    (st.tax_type = TaxSystemType.Qst →
      db.get_rate code (some region_code) vr =
        Except.ok [⟨country.standard_rate, TaxType.GST, false⟩,
          ⟨st.standard_rate, TaxType.QST, true⟩]) ∧
    (st.tax_type = TaxSystemType.Pst →
      db.get_rate code (some region_code) vr =
        Except.ok [⟨country.standard_rate, TaxType.GST, false⟩,
          ⟨st.standard_rate, TaxType.PST, true⟩]) ∧
    (st.tax_type ≠ TaxSystemType.Hst → st.tax_type ≠ TaxSystemType.Qst →
      st.tax_type ≠ TaxSystemType.Pst →
      db.get_rate code (some region_code) vr =
        Except.ok [⟨country.standard_rate, TaxType.GST, false⟩]) ∧
    (db.get_rate code none vr =
      Except.ok [⟨country.standard_rate, TaxType.GST, false⟩]) ∧
    scCA.calculate_tax 100000 dbCA = Except.ok 12350 := by
  refine ⟨?_, ?_, ?_, ?_, ?_, ?_⟩
  · intro htt
    rcases hkind with hk | hk | hk | hk <;>
      simp [TaxDatabase.get_rate, TaxDatabase.dispatch_rates, hcountry,
        hcode, hk, TaxDatabase.gst_branch_rates,
        TaxDatabase.handle_gst_rates, hstates, hst, htt]
  · intro htt
    rcases hkind with hk | hk | hk | hk <;>
      simp [TaxDatabase.get_rate, TaxDatabase.dispatch_rates, hcountry,
        hcode, hk, TaxDatabase.gst_branch_rates,
        TaxDatabase.handle_gst_rates, hstates, hst, htt]
  · intro htt
    rcases hkind with hk | hk | hk | hk <;>
      simp [TaxDatabase.get_rate, TaxDatabase.dispatch_rates, hcountry,
        hcode, hk, TaxDatabase.gst_branch_rates,
        TaxDatabase.handle_gst_rates, hstates, hst, htt]
  · intro h1 h2 h3
    cases htt : st.tax_type
    case Hst => exact absurd htt h1
    case Qst => exact absurd htt h2
    case Pst => exact absurd htt h3
    all_goals
      rcases hkind with hk | hk | hk | hk <;>
        simp [TaxDatabase.get_rate, TaxDatabase.dispatch_rates, hcountry,
          hcode, hk, TaxDatabase.gst_branch_rates,
          TaxDatabase.handle_gst_rates, hstates, hst, htt]
  · rcases hkind with hk | hk | hk | hk <;>
      simp [TaxDatabase.get_rate, TaxDatabase.dispatch_rates, hcountry,
        hcode, hk, TaxDatabase.gst_branch_rates,
        TaxDatabase.handle_gst_rates]
  · with_unfolding_all rfl

/-- C4 witness: the `Pst` dispatch instantiated on the modelled Canadian
store, and the end-to-end 12350 example. -/
theorem C4_gst_layering_witness :
    dbCA.get_rate "CA" (some "CA-BC") none =
      Except.ok [⟨5/100, TaxType.GST, false⟩,
        ⟨7/100, TaxType.PST, true⟩] ∧
    scCA.calculate_tax 100000 dbCA = Except.ok 12350 := by
  have h := C4_gst_layering dbCA "CA" countryCA "CA-BC"
    [("CA-BC", stateBC)] stateBC none (by decide) rfl (Or.inl rfl) rfl rfl
  refine ⟨?_, h.2.2.2.2.2⟩
  have hp := h.2.2.1 rfl
  simpa [countryCA, stateBC] using hp

/-! ## C8: the classifier's range -/

/-- Caller-visible treatments: everything except the internal `NoneType`
(Rust `None`) and `ThresholdBased`. -/
def allowedB : TaxCalculationType → Bool
  | TaxCalculationType.NoneType => false
  | TaxCalculationType.ThresholdBased => false
  | _ => true

/-- `allowedB` lifted to optional treatments. -/
def optAllowedB : Option TaxCalculationType → Bool
  | none => true
  | some t => allowedB t

/-- A config whose stored treatments are all caller-visible. -/
def TaxRuleConfig.treatmentsAllowed (c : TaxRuleConfig) : Bool :=
  allowedB c.type && optAllowedB c.below_threshold &&
    optAllowedB c.above_threshold &&
    optAllowedB c.below_threshold_digital_products &&
    optAllowedB c.above_threshold_digital_products

/-- An agreement whose classifier-visible configs only store
caller-visible treatments. -/
def TradeAgreement.treatmentsAllowed (a : TradeAgreement) : Bool :=
  (match a.tax_rules.internal_b2b with
   | none => true
   | some c => c.treatmentsAllowed) &&
  (match a.tax_rules.internal_b2c with
   | none => true
   | some c => c.treatmentsAllowed)

/-- A store whose agreements all satisfy `treatmentsAllowed`. -/
def TaxDatabase.treatmentsAllowed (db : TaxDatabase) : Bool :=
  db.trade_agreements.all fun p => p.2.treatmentsAllowed

/-- A successful association-list lookup finds a stored pair. -/
theorem lookup_mem {α β : Type} [BEq α] {l : List (α × β)} {k : α} {v : β}
    (h : l.lookup k = some v) : ∃ k', (k', v) ∈ l := by
  induction l with
  | nil => simp [List.lookup] at h
  | cons p l ih =>
      rcases p with ⟨k', v'⟩
      simp only [List.lookup] at h
      cases hk : k == k' with
      | true =>
          rw [hk] at h
          simp at h
          exact ⟨k', by simp [h]⟩
      | false =>
          rw [hk] at h
          simp at h
          obtain ⟨k'', hmem⟩ := ih h
          exact ⟨k'', List.mem_cons_of_mem _ hmem⟩

/-- Every agreement `determine_rule` returns comes from the store. -/
theorem determine_rule_mem (s : TaxScenario) (db : TaxDatabase)
    (ag : TradeAgreement)
    (h : s.determine_rule db = Except.ok (some ag)) :
    ∃ k, (k, ag) ∈ db.trade_agreements := by
  rw [TaxScenario.determine_rule] at h
  cases hov : s.trade_agreement_override with
  | none =>
      rw [hov] at h
      by_cases hsc : s.is_same_country = true
      · rw [if_pos hsc] at h
        simp only [Except.ok.injEq] at h
        rw [TaxDatabase.get_federal_rule] at h
        cases hl : db.trade_agreements.lookup s.source_region.country with
        | none => rw [hl] at h; simp at h
        | some rule =>
            rw [hl] at h
            by_cases hfed : rule.is_federal = true
            · simp only [hfed, if_true] at h
              obtain rfl := Option.some.inj h
              exact lookup_mem hl
            · simp [hfed] at h
      · rw [if_neg hsc] at h
        simp only [Except.ok.injEq] at h
        rw [TaxDatabase.get_international_rule] at h
        obtain ⟨p, hp, hpag⟩ := Option.map_eq_some'.mp h
        refine ⟨p.1, ?_⟩
        rw [← hpag]
        simpa using List.mem_of_find?_eq_some hp
  | some ov =>
      rw [hov] at h
      cases ov with
      | UseAgreement id =>
          simp only [TaxDatabase.get_rule] at h
          cases hl : db.trade_agreements.lookup id with
          | none => rw [hl] at h; simp at h
          | some rule =>
              rw [hl] at h
              simp at h
              obtain rfl := h
              exact lookup_mem hl
      | NoAgreement => simp at h

/-- `by_threshold` only returns treatments stored in the config. -/
theorem by_threshold_allowed (c : TaxRuleConfig) (amount : ℕ) (ig : Bool)
    (hc : c.treatmentsAllowed = true) :
    allowedB (c.by_threshold amount ig) = true := by
  rw [TaxRuleConfig.treatmentsAllowed] at hc
  simp only [Bool.and_eq_true] at hc
  obtain ⟨⟨⟨⟨hty, hb⟩, ha⟩, _⟩, _⟩ := hc
  cases hb1 : c.below_threshold with
  | none => simp [TaxRuleConfig.by_threshold, hb1, hty]
  | some b =>
      cases ha1 : c.above_threshold with
      | none => simp [TaxRuleConfig.by_threshold, hb1, ha1, hty]
      | some a =>
          cases ht1 : c.threshold with
          | none => simp [TaxRuleConfig.by_threshold, hb1, ha1, ht1, hty]
          | some tr =>
              rw [hb1] at hb
              rw [ha1] at ha
              simp only [optAllowedB] at hb ha
              by_cases hcond : amount < tr ∧ ig = false
              · simpa [TaxRuleConfig.by_threshold, hb1, ha1, ht1, hcond]
                  using hb
              · simpa [TaxRuleConfig.by_threshold, hb1, ha1, ht1, hcond]
                  using ha

/-- `by_digital_product_threshold` only returns treatments stored in the
config. -/
theorem by_digital_threshold_allowed (c : TaxRuleConfig) (amount : ℕ)
    (ig : Bool) (hc : c.treatmentsAllowed = true) :
    allowedB (c.by_digital_product_threshold amount ig) = true := by
  rw [TaxRuleConfig.treatmentsAllowed] at hc
  simp only [Bool.and_eq_true] at hc
  obtain ⟨⟨⟨⟨hty, _⟩, _⟩, hdb⟩, hda⟩ := hc
  cases hb1 : c.below_threshold_digital_products with
  | none => simp [TaxRuleConfig.by_digital_product_threshold, hb1, hty]
  | some b =>
      cases ha1 : c.above_threshold_digital_products with
      | none =>
          simp [TaxRuleConfig.by_digital_product_threshold, hb1, ha1, hty]
      | some a =>
          cases ht1 : c.threshold_digital_products with
          | none =>
              simp [TaxRuleConfig.by_digital_product_threshold, hb1, ha1,
                ht1, hty]
          | some tr =>
              rw [hb1] at hdb
              rw [ha1] at hda
              simp only [optAllowedB] at hdb hda
              by_cases hcond : amount < tr ∧ ig = false
              · simpa [TaxRuleConfig.by_digital_product_threshold, hb1,
                  ha1, ht1, hcond] using hdb
              · simpa [TaxRuleConfig.by_digital_product_threshold, hb1,
                  ha1, ht1, hcond] using hda

/-- The combined threshold selector only returns stored treatments. -/
theorem by_threshold_or_digital_allowed (c : TaxRuleConfig) (amount : ℕ)
    (dig ig : Bool) (hc : c.treatmentsAllowed = true) :
    allowedB (c.by_threshold_or_digital_product_threshold amount dig ig)
      = true := by
  rw [TaxRuleConfig.by_threshold_or_digital_product_threshold]
  cases dig
  · simpa using by_threshold_allowed c amount ig hc
  · simpa using by_digital_threshold_allowed c amount ig hc

/-- The agreement classifier only produces caller-visible treatments when
the agreement's configs do. -/
theorem gcta_allowed (s : TaxScenario) (ag : TradeAgreement) (amount : ℚ)
    (t : TaxCalculationType) (hag : ag.treatmentsAllowed = true)
    (h : s.get_calculation_type_from_agreement ag amount = Except.ok t) :
    allowedB t = true := by
  rw [TradeAgreement.treatmentsAllowed, Bool.and_eq_true] at hag
  obtain ⟨hb2b, hb2c⟩ := hag
  rw [TaxScenario.get_calculation_type_from_agreement] at h
  by_cases hint : ag.is_international = true
  · rw [if_pos hint] at h
    cases htr : s.transaction_type with
    | B2B =>
        rw [htr] at h
        cases hrule : ag.tax_rules.internal_b2b with
        | none => rw [hrule] at h; simp at h; simp [← h, allowedB]
        | some rule =>
            rw [hrule] at h
            simp at h
            rw [hrule] at hb2b
            rw [← h]
            exact by_threshold_allowed rule _ _ hb2b
    | B2C =>
        rw [htr] at h
        cases hrule : ag.tax_rules.internal_b2c with
        | none => rw [hrule] at h; simp at h; simp [← h, allowedB]
        | some rule =>
            rw [hrule] at h
            simp at h
            rw [hrule] at hb2c
            rw [← h]
            exact by_threshold_or_digital_allowed rule _ _ _ hb2c
  · rw [if_neg hint] at h
    by_cases hfed : ag.is_federal = true
    · rw [if_pos hfed] at h
      by_cases hca : s.ca_hst_or_qc = true
      · rw [if_pos hca] at h
        simp at h
        simp [← h, allowedB]
      · rw [if_neg hca] at h
        cases htr : s.transaction_type with
        | B2B =>
            rw [htr] at h
            cases hrule : ag.tax_rules.internal_b2b with
            | none => rw [hrule] at h; simp at h; simp [← h, allowedB]
            | some rule =>
                rw [hrule] at h
                simp only at h
                rw [hrule] at hb2b
                by_cases hres : rule.is_reseller s.has_resale_certificate
                    = true
                · rw [if_pos hres] at h
                  simp at h
                  simp [← h, allowedB]
                · rw [if_neg hres] at h
                  simp at h
                  rw [← h]
                  exact by_threshold_allowed rule _ _ hb2b
        | B2C =>
            rw [htr] at h
            cases hrule : ag.tax_rules.internal_b2c with
            | none => rw [hrule] at h; simp at h; simp [← h, allowedB]
            | some rule =>
                rw [hrule] at h
                simp only at h
                rw [hrule] at hb2c
                by_cases hthr : s.ignore_threshold = false ∧
                    amount < ((rule.threshold.getD 4294967295 : ℕ) : ℚ)
                · rw [if_pos hthr] at h
                  simp at h
                  simp [← h, allowedB]
                · rw [if_neg hthr] at h
                  simp at h
                  rw [← h]
                  exact by_threshold_allowed rule _ _ hb2c
    · rw [if_neg hfed] at h
      simp at h
      simp [← h, allowedB]

/-- C8 (amended): when every trade-agreement config in the store only
holds caller-visible treatments in its default and threshold slots,
`determine_calculation_type` returns one of the five visible variants —
but not for arbitrary store contents (see the counterexample). -/
theorem C8_classifier_range (s : TaxScenario) (db : TaxDatabase)
    (amount : ℚ) (t : TaxCalculationType)
    (hdb : db.treatmentsAllowed = true)
    (h : s.determine_calculation_type db amount = Except.ok t) :
    t = TaxCalculationType.Origin ∨ t = TaxCalculationType.Destination ∨
    t = TaxCalculationType.ReverseCharge ∨
    t = TaxCalculationType.ZeroRated ∨ t = TaxCalculationType.Exempt := by
  have hallowed : allowedB t = true := by
    rw [TaxScenario.determine_calculation_type] at h
    cases hr : s.determine_rule db with
    | error d => rw [hr] at h; simp at h
    | ok oag =>
        rw [hr] at h
        cases oag with
        | none =>
            cases hsc : s.is_same_country with
            | true =>
                cases htr : s.transaction_type <;>
                  simp [hsc, htr] at h <;> simp [← h, allowedB]
            | false =>
                simp [hsc] at h
                simp [← h, allowedB]
        | some ag =>
            have hg : s.get_calculation_type_from_agreement ag amount =
                Except.ok t := by simpa using h
            obtain ⟨k, hk⟩ := determine_rule_mem s db ag hr
            have hagw : ag.treatmentsAllowed = true := by
              rw [TaxDatabase.treatmentsAllowed, List.all_eq_true] at hdb
              exact hdb (k, ag) hk
            exact gcta_allowed s ag amount t hagw hg
  cases t <;> simp_all [allowedB]

/-- Fixture config whose default treatment is the internal `NoneType`. -/
def cfgNoneT : TaxRuleConfig :=
  ⟨TaxCalculationType.NoneType, none, none, none, none, none, none, none⟩

/-- Fixture federal agreement exposing `cfgNoneT` to B2B classification. -/
def agC8 : TradeAgreement :=
  ⟨"XX federation", TradeAgreementType.FederalState, ["XX"], true,
   ⟨true, true, true⟩, ⟨some cfgNoneT, none, cfgExport⟩⟩

/-- Fixture store for the C8 counterexample. -/
def dbC8 : TaxDatabase := ⟨[], [("XX", agC8)]⟩

/-- Fixture scenario triggering the federal B2B path in `dbC8`. -/
def scC8 : TaxScenario :=
  ⟨⟨"XX", none⟩, ⟨"XX", none⟩, TransactionType.B2B, none, false, false,
   false, none⟩

/-- C8 counterexample: with a store whose federal agreement carries a
`None` default treatment, the classifier returns that internal variant to
the caller, so the claim's "for any contents of the store's
trade-agreement configs" fails. -/
theorem C8_counterexample :
    scC8.determine_calculation_type dbC8 100 =
      Except.ok TaxCalculationType.NoneType ∧
    TaxCalculationType.NoneType ≠ TaxCalculationType.Origin ∧
    TaxCalculationType.NoneType ≠ TaxCalculationType.Destination ∧
    TaxCalculationType.NoneType ≠ TaxCalculationType.ReverseCharge ∧
    TaxCalculationType.NoneType ≠ TaxCalculationType.ZeroRated ∧
    TaxCalculationType.NoneType ≠ TaxCalculationType.Exempt := by
  refine ⟨rfl, by decide, by decide, by decide, by decide, by decide⟩

/-- C8 witness: the modelled Canadian store satisfies the well-formedness
side condition and the above-threshold classification lands in the
visible range. -/
theorem C8_classifier_range_witness :
    scCA.determine_calculation_type dbCA 100000 =
      Except.ok TaxCalculationType.Destination ∧
    (TaxCalculationType.Destination = TaxCalculationType.Origin ∨
     TaxCalculationType.Destination = TaxCalculationType.Destination ∨
     TaxCalculationType.Destination = TaxCalculationType.ReverseCharge ∨
     TaxCalculationType.Destination = TaxCalculationType.ZeroRated ∨
     TaxCalculationType.Destination = TaxCalculationType.Exempt) := by
  have hclass : scCA.determine_calculation_type dbCA 100000 =
      Except.ok TaxCalculationType.Destination := by
    with_unfolding_all rfl
  exact ⟨hclass, C8_classifier_range scCA dbCA 100000 _ rfl hclass⟩

end WorldTax
